import Mathlib

/-!
Verification of the Byword legal-intake reference-data toolkit.

Shallow embedding of `src/international_phone_system.py` and
`src/main_international_manager.py`. Strings are modelled as `List Char`
(written with `"...".data`); Python dicts with insertion order are modelled
as association lists; functions keep the source's names (fields named
`national_prefix` / `international_prefix` in the source appear here as
`national_pfx` / `international_pfx`).
-/

set_option maxHeartbeats 1000000

abbrev Str := List Char

/-- Python str.lower (ASCII). -/
def lowerStr (s : Str) : Str := s.map Char.toLower

/-- Python str.upper (ASCII). -/
def upperStr (s : Str) : Str := s.map Char.toUpper

/-- Phone system information for a country (dataclass CountryPhoneInfo /
table rows of INTERNATIONAL_PHONE_DATABASE; the phone_formats and
emergency_numbers fields are never consulted by the functions under
verification and are omitted). -/
structure CountryPhoneInfo where
  country_code : Str
  calling_code : Str
  country_name : Str
  national_pfx : Str
  international_pfx : Str
  mobile_prefixes : List Str
  area_codes : List (Str × Str)
deriving DecidableEq

/-- Result record of parsing (dataclass PhoneNumberInfo). -/
structure PhoneNumberInfo where
  raw_number : Str
  formatted_number : Str
  international_format : Str
  country_code : Str
  national_number : Str
  area_code : Option Str
  is_valid : Bool
  phone_type : Str
  country_name : Str
  timezone : Str
deriving DecidableEq

def united_states_info : CountryPhoneInfo :=
  { country_code := "US".data
    calling_code := "+1".data
    country_name := "United States".data
    national_pfx := "1".data
    international_pfx := "011".data
    mobile_prefixes := []
    area_codes :=
      [("303".data, "Denver Metro Area".data),
       ("720".data, "Denver Metro Area (overlay)".data),
       ("719".data, "Colorado Springs, Pueblo".data),
       ("970".data, "Northern and Western Colorado".data),
       ("213".data, "Los Angeles".data),
       ("310".data, "West Los Angeles, Beverly Hills".data),
       ("323".data, "Los Angeles (overlay)".data),
       ("415".data, "San Francisco".data),
       ("510".data, "Oakland, Berkeley".data),
       ("650".data, "San Mateo County".data),
       ("707".data, "Napa, Santa Rosa".data),
       ("714".data, "Orange County".data),
       ("760".data, "San Diego County North".data),
       ("805".data, "Santa Barbara, Ventura".data),
       ("818".data, "San Fernando Valley".data),
       ("831".data, "Monterey, Santa Cruz".data),
       ("858".data, "San Diego".data),
       ("909".data, "San Bernardino".data),
       ("916".data, "Sacramento".data),
       ("949".data, "South Orange County".data),
       ("212".data, "Manhattan".data),
       ("347".data, "NYC (overlay)".data),
       ("646".data, "Manhattan (overlay)".data),
       ("718".data, "Brooklyn, Queens, Bronx, Staten Island".data),
       ("917".data, "NYC (overlay)".data),
       ("214".data, "Dallas".data),
       ("281".data, "Houston suburbs".data),
       ("512".data, "Austin".data),
       ("713".data, "Houston".data),
       ("832".data, "Houston (overlay)".data),
       ("972".data, "Dallas suburbs".data)] }

def canada_info : CountryPhoneInfo :=
  { country_code := "CA".data
    calling_code := "+1".data
    country_name := "Canada".data
    national_pfx := "1".data
    international_pfx := "011".data
    mobile_prefixes := []
    area_codes :=
      [("416".data, "Toronto".data),
       ("647".data, "Toronto (overlay)".data),
       ("437".data, "Toronto (overlay)".data),
       ("613".data, "Ottawa".data),
       ("905".data, "Greater Toronto Area".data),
       ("289".data, "Hamilton area (overlay)".data),
       ("519".data, "London, Windsor".data),
       ("705".data, "Northern Ontario".data),
       ("807".data, "Thunder Bay area".data),
       ("604".data, "Vancouver".data),
       ("778".data, "Vancouver (overlay)".data),
       ("236".data, "Vancouver (overlay)".data),
       ("250".data, "Rest of British Columbia".data),
       ("403".data, "Calgary".data),
       ("587".data, "Calgary (overlay)".data),
       ("780".data, "Edmonton".data),
       ("825".data, "Edmonton (overlay)".data),
       ("514".data, "Montreal".data),
       ("438".data, "Montreal (overlay)".data),
       ("450".data, "Montreal suburbs".data),
       ("579".data, "Montreal suburbs (overlay)".data),
       ("418".data, "Quebec City".data),
       ("819".data, "Eastern Quebec".data)] }

def australia_info : CountryPhoneInfo :=
  { country_code := "AU".data
    calling_code := "+61".data
    country_name := "Australia".data
    national_pfx := "0".data
    international_pfx := "0011".data
    mobile_prefixes := ["04".data, "05".data]
    area_codes :=
      [("02".data, "New South Wales, Australian Capital Territory".data),
       ("03".data, "Victoria, Tasmania".data),
       ("07".data, "Queensland".data),
       ("08".data, "South Australia, Western Australia, Northern Territory".data),
       ("04".data, "Mobile phones".data),
       ("05".data, "Mobile phones (alternative)".data)] }

def united_kingdom_info : CountryPhoneInfo :=
  { country_code := "GB".data
    calling_code := "+44".data
    country_name := "United Kingdom".data
    national_pfx := "0".data
    international_pfx := "00".data
    mobile_prefixes := ["07".data]
    area_codes :=
      [("020".data, "London".data),
       ("0121".data, "Birmingham".data),
       ("0131".data, "Edinburgh".data),
       ("0141".data, "Glasgow".data),
       ("0151".data, "Liverpool".data),
       ("0161".data, "Manchester".data),
       ("0113".data, "Leeds".data),
       ("0114".data, "Sheffield".data),
       ("0115".data, "Nottingham".data),
       ("0116".data, "Leicester".data),
       ("0117".data, "Bristol".data),
       ("0118".data, "Reading".data),
       ("01223".data, "Cambridge".data),
       ("01865".data, "Oxford".data),
       ("01904".data, "York".data)] }

def germany_info : CountryPhoneInfo :=
  { country_code := "DE".data
    calling_code := "+49".data
    country_name := "Germany".data
    national_pfx := "0".data
    international_pfx := "00".data
    mobile_prefixes := ["015".data, "016".data, "017".data]
    area_codes :=
      [("030".data, "Berlin".data),
       ("040".data, "Hamburg".data),
       ("069".data, "Frankfurt am Main".data),
       ("089".data, "Munich".data),
       ("0221".data, "Cologne".data),
       ("0211".data, "Düsseldorf".data),
       ("0201".data, "Essen".data),
       ("0231".data, "Dortmund".data),
       ("0711".data, "Stuttgart".data),
       ("0351".data, "Dresden".data)] }

def france_info : CountryPhoneInfo :=
  { country_code := "FR".data
    calling_code := "+33".data
    country_name := "France".data
    national_pfx := "0".data
    international_pfx := "00".data
    mobile_prefixes := ["06".data, "07".data]
    area_codes :=
      [("01".data, "Île-de-France (Paris region)".data),
       ("02".data, "Northwest France".data),
       ("03".data, "Northeast France".data),
       ("04".data, "Southeast France".data),
       ("05".data, "Southwest France".data),
       ("06".data, "Mobile phones".data),
       ("07".data, "Mobile phones".data)] }

def brazil_info : CountryPhoneInfo :=
  { country_code := "BR".data
    calling_code := "+55".data
    country_name := "Brazil".data
    national_pfx := "0".data
    international_pfx := "00".data
    mobile_prefixes := ["9".data]
    area_codes :=
      [("11".data, "São Paulo".data),
       ("21".data, "Rio de Janeiro".data),
       ("31".data, "Belo Horizonte".data),
       ("41".data, "Curitiba".data),
       ("47".data, "Joinville".data),
       ("48".data, "Florianópolis".data),
       ("51".data, "Porto Alegre".data),
       ("61".data, "Brasília".data),
       ("62".data, "Goiânia".data),
       ("71".data, "Salvador".data),
       ("81".data, "Recife".data),
       ("85".data, "Fortaleza".data)] }

def india_info : CountryPhoneInfo :=
  { country_code := "IN".data
    calling_code := "+91".data
    country_name := "India".data
    national_pfx := "0".data
    international_pfx := "00".data
    mobile_prefixes := ["6".data, "7".data, "8".data, "9".data]
    area_codes :=
      [("11".data, "Delhi".data),
       ("22".data, "Mumbai".data),
       ("33".data, "Kolkata".data),
       ("40".data, "Hyderabad".data),
       ("44".data, "Chennai".data),
       ("80".data, "Bangalore".data),
       ("20".data, "Pune".data),
       ("79".data, "Ahmedabad".data)] }

def japan_info : CountryPhoneInfo :=
  { country_code := "JP".data
    calling_code := "+81".data
    country_name := "Japan".data
    national_pfx := "0".data
    international_pfx := "010".data
    mobile_prefixes := ["070".data, "080".data, "090".data]
    area_codes :=
      [("03".data, "Tokyo".data),
       ("06".data, "Osaka".data),
       ("052".data, "Nagoya".data),
       ("011".data, "Sapporo".data),
       ("022".data, "Sendai".data),
       ("092".data, "Fukuoka".data),
       ("075".data, "Kyoto".data),
       ("045".data, "Yokohama".data)] }

def mexico_info : CountryPhoneInfo :=
  { country_code := "MX".data
    calling_code := "+52".data
    country_name := "Mexico".data
    national_pfx := "01".data
    international_pfx := "00".data
    mobile_prefixes := ["1".data]
    area_codes :=
      [("55".data, "Mexico City".data),
       ("33".data, "Guadalajara".data),
       ("81".data, "Monterrey".data),
       ("222".data, "Puebla".data),
       ("228".data, "Veracruz".data),
       ("664".data, "Tijuana".data),
       ("998".data, "Cancún".data)] }

/-- INTERNATIONAL_PHONE_DATABASE, in Python dict insertion order. -/
def phoneDB : List (Str × CountryPhoneInfo) :=
  [("united_states".data, united_states_info),
   ("canada".data, canada_info),
   ("australia".data, australia_info),
   ("united_kingdom".data, united_kingdom_info),
   ("germany".data, germany_info),
   ("france".data, france_info),
   ("brazil".data, brazil_info),
   ("india".data, india_info),
   ("japan".data, japan_info),
   ("mexico".data, mexico_info)]

/-- The calling code with '+' removed (source: calling_code.replace('+','')). -/
def calling_digits (ci : CountryPhoneInfo) : Str :=
  ci.calling_code.filter (fun c => c != '+')

/-- _clean_phone_number: keep a leading '+', drop every other non-digit. -/
def clean_phone_number (s : Str) : Str :=
  if ['+'].isPrefixOf s then '+' :: (s.drop 1).filter Char.isDigit
  else s.filter Char.isDigit

/-- _detect_country_from_number: first table entry whose calling code is a
prefix of the digits after '+'. -/
def detect_country_from_number (cleaned : Str) : Option Str :=
  if ['+'].isPrefixOf cleaned then
    phoneDB.findSome? (fun kc =>
      if (calling_digits kc.2).isPrefixOf (cleaned.drop 1) then some kc.1 else none)
  else none

/-- _get_country_key_from_code: first table entry whose ISO code equals the
upper-cased argument. -/
def get_country_key_from_code (code : Str) : Option Str :=
  phoneDB.findSome? (fun kc =>
    if kc.2.country_code = upperStr code then some kc.1 else none)

/-- _validate_number_for_country: per-country length rules. -/
def validate_number_for_country (nn : Str) (ci : CountryPhoneInfo) : Bool :=
  if ci.country_code = "US".data ∨ ci.country_code = "CA".data then
    decide (nn.length = 10)
  else if ci.country_code = "AU".data then decide (nn.length = 9)
  else if ci.country_code = "GB".data then decide (10 ≤ nn.length ∧ nn.length ≤ 11)
  else if ci.country_code = "DE".data then decide (10 ≤ nn.length ∧ nn.length ≤ 12)
  else if ci.country_code = "FR".data then decide (nn.length = 9)
  else if ci.country_code = "IN".data then decide (nn.length = 10)
  else if ci.country_code = "JP".data then decide (10 ≤ nn.length ∧ nn.length ≤ 11)
  else decide (7 ≤ nn.length)

/-- _determine_phone_type: mobile prefixes first (in table order), then the
literal toll-free / premium prefixes, else landline. -/
def determine_phone_type (nn : Str) (ci : CountryPhoneInfo) : Str :=
  match ci.mobile_prefixes.find? (fun p => p.isPrefixOf nn) with
  | some _ => "mobile".data
  | none =>
    if ("800".data).isPrefixOf nn ∨ ("855".data).isPrefixOf nn then "toll_free".data
    else if ("900".data).isPrefixOf nn then "premium".data
    else "landline".data

/-- _extract_area_code: candidate prefix lengths 2,3,4,5 in increasing
order; first candidate that is a key of the country's area-code map. -/
def extract_area_code (nn : Str) (ci : CountryPhoneInfo) : Option Str :=
  [2, 3, 4, 5].findSome? (fun len =>
    if len ≤ nn.length ∧ (ci.area_codes.lookup (nn.take len)).isSome then
      some (nn.take len)
    else none)

/-- _apply_formatting: per-country literal grouping of the national number. -/
def apply_formatting (nn : Str) (ci : CountryPhoneInfo) : Str :=
  if (ci.country_code = "US".data ∨ ci.country_code = "CA".data) ∧ nn.length = 10 then
    "(".data ++ nn.take 3 ++ ") ".data ++ (nn.drop 3).take 3 ++ "-".data ++ nn.drop 6
  else if ci.country_code = "AU".data ∧ nn.length = 9 then
    nn.take 1 ++ " ".data ++ (nn.drop 1).take 4 ++ " ".data ++ nn.drop 5
  else if ci.country_code = "GB".data then
    if nn.length = 10 then
      nn.take 4 ++ " ".data ++ (nn.drop 4).take 3 ++ " ".data ++ nn.drop 7
    else
      nn.take 3 ++ " ".data ++ (nn.drop 3).take 3 ++ " ".data ++ nn.drop 6
  else if ci.country_code = "DE".data then
    nn.take 3 ++ " ".data ++ nn.drop 3
  else if ci.country_code = "FR".data ∧ nn.length = 9 then
    nn.take 1 ++ " ".data ++ (nn.drop 1).take 2 ++ " ".data ++ (nn.drop 3).take 2
      ++ " ".data ++ (nn.drop 5).take 2 ++ " ".data ++ nn.drop 7
  else nn

/-- _format_number: national rendering, or calling code plus national. -/
def format_number (nn : Str) (ci : CountryPhoneInfo) (format_type : Str) : Str :=
  if format_type = "international".data then
    ci.calling_code ++ " ".data ++ apply_formatting nn ci
  else apply_formatting nn ci

/-- The hard-coded per-country area-code to timezone override table inside
_get_timezone_for_area_code. -/
def timezone_mapping : List (Str × List (Str × Str)) :=
  [("united_states".data,
    [("303".data, "America/Denver".data),
     ("720".data, "America/Denver".data),
     ("719".data, "America/Denver".data),
     ("970".data, "America/Denver".data),
     ("213".data, "America/Los_Angeles".data),
     ("415".data, "America/Los_Angeles".data),
     ("212".data, "America/New_York".data)]),
   ("canada".data,
    [("416".data, "America/Toronto".data),
     ("604".data, "America/Vancouver".data)]),
   ("australia".data,
    [("02".data, "Australia/Sydney".data),
     ("03".data, "Australia/Melbourne".data),
     ("07".data, "Australia/Brisbane".data),
     ("08".data, "Australia/Perth".data)])]

/-- The per-country default timezone table inside _get_timezone_for_area_code. -/
def default_timezones : List (Str × Str) :=
  [("united_states".data, "America/New_York".data),
   ("canada".data, "America/Toronto".data),
   ("australia".data, "Australia/Sydney".data),
   ("united_kingdom".data, "Europe/London".data),
   ("germany".data, "Europe/Berlin".data),
   ("france".data, "Europe/Paris".data)]

/-- _get_timezone_for_area_code: override entry, else country default, else UTC. -/
def get_timezone_for_area_code (area_code : Option Str) (country_key : Str) : Str :=
  match (timezone_mapping.lookup country_key).bind
      (fun m => area_code.bind (fun ac => m.lookup ac)) with
  | some tz => tz
  | none => (default_timezones.lookup country_key).getD ("UTC".data)

/-- _parse_for_country: strip calling code and national prefix, then
validate, classify, extract the area code and render. -/
def parse_for_country (cleaned : Str) (country_key : Str) (ci : CountryPhoneInfo) :
    PhoneNumberInfo :=
  let cc := calling_digits ci
  let nn1 :=
    if ('+' :: cc).isPrefixOf cleaned then cleaned.drop (cc.length + 1)
    else if cc.isPrefixOf cleaned then cleaned.drop cc.length
    else cleaned
  let nn :=
    if ci.national_pfx ≠ [] ∧ ci.national_pfx.isPrefixOf nn1 then
      nn1.drop ci.national_pfx.length
    else nn1
  let area_code := extract_area_code nn ci
  { raw_number := cleaned
    formatted_number := format_number nn ci ("national".data)
    international_format := format_number nn ci ("international".data)
    country_code := ci.country_code
    national_number := nn
    area_code := area_code
    is_valid := validate_number_for_country nn ci
    phone_type := determine_phone_type nn ci
    country_name := ci.country_name
    timezone := get_timezone_for_area_code area_code country_key }

/-- The country key parse_phone_number resolves: detected from a leading
'+', else from the hint, else "united_states". -/
def resolved_country_key (raw : Str) (hint : Option Str) : Str :=
  match detect_country_from_number (clean_phone_number raw) with
  | some k => k
  | none =>
    match hint with
    | some h => (get_country_key_from_code h).getD ("united_states".data)
    | none => "united_states".data

/-- The profile of the resolved country (the key is always a table key, so
the getD fallback never fires). -/
def resolved_country_info (raw : Str) (hint : Option Str) : CountryPhoneInfo :=
  (phoneDB.lookup (resolved_country_key raw hint)).getD united_states_info

/-- parse_phone_number: clean, resolve the country, parse for it. -/
def parse_phone_number (raw : Str) (hint : Option Str) : PhoneNumberInfo :=
  parse_for_country (clean_phone_number raw) (resolved_country_key raw hint)
    (resolved_country_info raw hint)

/-- Result shapes of format_for_dialing (the three dict shapes the source
returns: an error dict, the same-country dict with keys
domestic/international/dial_string, and the cross-country dict with keys
international/dial_string/instructions). -/
inductive DialingResult where
  | error (msg : Str)
  | domestic (domestic international dial_string : Str)
  | international (international dial_string instructions : Str)
deriving DecidableEq

/-- format_for_dialing. -/
def format_for_dialing (pi2 : PhoneNumberInfo) (calling_from_country : Str) :
    DialingResult :=
  match phoneDB.findSome? (fun kc =>
      if kc.2.country_code = calling_from_country then some kc.2 else none) with
  | none => .error ("Unknown calling country: ".data ++ calling_from_country)
  | some calling_from_info =>
    match phoneDB.findSome? (fun kc =>
        if kc.2.country_code = pi2.country_code then some (calling_digits kc.2)
        else none) with
    | none => .error ("Unknown target country: ".data ++ pi2.country_code)
    | some target_calling_code =>
      if calling_from_country = pi2.country_code then
        .domestic pi2.formatted_number pi2.international_format pi2.national_number
      else
        .international pi2.international_format
          (calling_from_info.international_pfx ++ target_calling_code
            ++ pi2.national_number)
          ("Dial ".data ++ calling_from_info.international_pfx ++ " + ".data
            ++ target_calling_code ++ " + ".data ++ pi2.national_number)

example : (phoneDB.lookup ("brazil".data)).isSome = true := by decide

example :
    (parse_phone_number ("+1 (303) 555-0123".data) none).national_number
      = "3035550123".data := by decide

example : (parse_phone_number ("+1 (303) 555-0123".data) none).is_valid = true := by
  decide

example :
    (parse_phone_number ("+1 (303) 555-0123".data) none).area_code
      = some ("303".data) := by decide

example :
    (parse_phone_number ("+1 (303) 555-0123".data) none).timezone
      = "America/Denver".data := by decide

example :
    (parse_phone_number ("+1 (303) 555-0123".data) none).formatted_number
      = "(303) 555-0123".data := by decide

example :
    (parse_phone_number ("+1 (303) 555-0123".data) none).phone_type
      = "landline".data := by decide

/-- LEGAL_EQUIVALENCIES: category to legal-system to claim-type lists. -/
def LEGAL_EQUIVALENCIES : List (Str × List (Str × List Str)) :=
  [("employment_law".data,
    [("common_law".data,
      ["wrongful_termination".data, "discrimination".data, "harassment".data,
       "whistleblower".data, "wage_theft".data]),
     ("civil_law".data,
      ["employment_termination".data, "workplace_discrimination".data,
       "employee_protection".data, "salary_disputes".data])]),
   ("civil_rights".data,
    [("common_law".data,
      ["discrimination".data, "civil_liberties".data, "constitutional_rights".data]),
     ("civil_law".data,
      ["fundamental_rights".data, "equality_rights".data, "personal_rights".data])])]

/-- find_equivalent_claim_types: per category, the first system whose key
equals the target and whose own claim list contains the query
(case-insensitively) contributes its list; the collected lists are
deduplicated.  (The source's list(set(...)) has unspecified order; the
embedding fixes first-occurrence order, and the theorems only state
membership.) -/
def find_equivalent_claim_types (claim_type target_legal_system : Str) : List Str :=
  (LEGAL_EQUIVALENCIES.flatMap (fun cat =>
    match cat.2.findSome? (fun sc =>
        if sc.1 = target_legal_system ∧ lowerStr claim_type ∈ sc.2.map lowerStr then
          some sc.2
        else none) with
    | some claims => claims
    | none => [])).dedup

/-- Modelled from the spec: the function the claim C2 describes — the union
of the target system's claim lists over every category whose SOURCE
(non-target) list contains the query claim type, deduplicated.  Written to
be compared with find_equivalent_claim_types above. -/
def find_equivalent_claim_types_spec (claim_type target_legal_system : Str) :
    List Str :=
  (LEGAL_EQUIVALENCIES.flatMap (fun cat =>
    if cat.2.any (fun sc =>
        sc.1 != target_legal_system
          && (sc.2.map lowerStr).contains (lowerStr claim_type)) then
      cat.2.flatMap (fun sc => if sc.1 = target_legal_system then sc.2 else [])
    else [])).dedup

/-- The fields of a raw case-file record consulted by the jurisdiction
filter of load_cases_by_jurisdiction (a missing field reads as the empty
string, matching dict.get(key, '')). -/
structure CaseRecord where
  country : Str
  state_province : Str
  jurisdiction : Str
deriving DecidableEq

/-- load_cases_by_jurisdiction: the file argument models the case file
(none = no case file found at any search path, in which case the source
logs a warning and returns []).  A case is kept when its country matches
(and, if a state is queried, its state_province matches); only otherwise
the legacy jurisdiction field is compared, and only when a state is
queried. -/
def load_cases_by_jurisdiction (file : Option (List CaseRecord))
    (country_key : Str) (state_key : Option Str) : List CaseRecord :=
  match file with
  | none => []
  | some all_cases =>
    all_cases.filter (fun c =>
      if lowerStr c.country = lowerStr country_key then
        match state_key with
        | some sk => lowerStr c.state_province == lowerStr sk
        | none => true
      else
        match state_key with
        | some sk => lowerStr c.jurisdiction == lowerStr sk
        | none => false)

/-- State/province entry of INTERNATIONAL_JURISDICTIONS (postal-range and
major-city data are never consulted by search_jurisdictions and are
omitted). -/
structure StateInfo where
  name : Str
  code : Str
  capital : Str
deriving DecidableEq

/-- Country entry of INTERNATIONAL_JURISDICTIONS. -/
structure CountryJurisdiction where
  country_name : Str
  country_code : Str
  legal_system : Str
  federal_system : Bool
  states : List (Str × StateInfo)
deriving DecidableEq

/-- INTERNATIONAL_JURISDICTIONS, in Python dict insertion order. -/
def INTERNATIONAL_JURISDICTIONS : List (Str × CountryJurisdiction) :=
  [("united_states".data,
    { country_name := "United States".data
      country_code := "US".data
      legal_system := "common_law".data
      federal_system := true
      states :=
        [("colorado".data,
          { name := "Colorado".data, code := "CO".data, capital := "Denver".data }),
         ("california".data,
          { name := "California".data, code := "CA".data,
            capital := "Sacramento".data }),
         ("new_york".data,
          { name := "New York".data, code := "NY".data, capital := "Albany".data })] }),
   ("canada".data,
    { country_name := "Canada".data
      country_code := "CA".data
      legal_system := "common_law".data
      federal_system := true
      states :=
        [("ontario".data,
          { name := "Ontario".data, code := "ON".data, capital := "Toronto".data }),
         ("british_columbia".data,
          { name := "British Columbia".data, code := "BC".data,
            capital := "Victoria".data })] }),
   ("australia".data,
    { country_name := "Australia".data
      country_code := "AU".data
      legal_system := "common_law".data
      federal_system := true
      states :=
        [("new_south_wales".data,
          { name := "New South Wales".data, code := "NSW".data,
            capital := "Sydney".data }),
         ("victoria".data,
          { name := "Victoria".data, code := "VIC".data,
            capital := "Melbourne".data })] }),
   ("united_kingdom".data,
    { country_name := "United Kingdom".data
      country_code := "GB".data
      legal_system := "common_law".data
      federal_system := false
      states :=
        [("england".data,
          { name := "England".data, code := "ENG".data, capital := "London".data }),
         ("scotland".data,
          { name := "Scotland".data, code := "SCT".data,
            capital := "Edinburgh".data })] }),
   ("germany".data,
    { country_name := "Germany".data
      country_code := "DE".data
      legal_system := "civil_law".data
      federal_system := true
      states :=
        [("bavaria".data,
          { name := "Bavaria".data, code := "BY".data, capital := "Munich".data }),
         ("north_rhine_westphalia".data,
          { name := "North Rhine-Westphalia".data, code := "NW".data,
            capital := "Düsseldorf".data })] }),
   ("france".data,
    { country_name := "France".data
      country_code := "FR".data
      legal_system := "civil_law".data
      federal_system := false
      states :=
        [("ile_de_france".data,
          { name := "Île-de-France".data, code := "IDF".data,
            capital := "Paris".data })] })]

/-- Python substring containment (the `in` operator on strings). -/
def isSubstr (p : Str) : Str → Bool
  | [] => p.isPrefixOf []
  | c :: rest => p.isPrefixOf (c :: rest) || isSubstr p rest

/-- Result rows of search_jurisdictions (the "country" and "state" dict
shapes). -/
inductive SearchResult where
  | country (key name code legal_system : Str)
  | state (country_key country_name state_key state_name state_code capital
      legal_system : Str)
deriving DecidableEq

/-- search_jurisdictions: case-insensitive substring match of the query
against country name/code and, per state, name/code/key, appending in
table order with each country entry before its states' entries. -/
def search_jurisdictions (query : Str) : List SearchResult :=
  INTERNATIONAL_JURISDICTIONS.flatMap (fun kc =>
    (if isSubstr (lowerStr query) (lowerStr kc.2.country_name)
        || isSubstr (lowerStr query) (lowerStr kc.2.country_code) then
      [SearchResult.country kc.1 kc.2.country_name kc.2.country_code
        kc.2.legal_system]
    else [])
    ++ kc.2.states.filterMap (fun ss =>
      if isSubstr (lowerStr query) (lowerStr ss.2.name)
          || isSubstr (lowerStr query) (lowerStr ss.2.code)
          || isSubstr (lowerStr query) (lowerStr ss.1) then
        some (SearchResult.state kc.1 kc.2.country_name ss.1 ss.2.name ss.2.code
          ss.2.capital kc.2.legal_system)
      else none))

example :
    find_equivalent_claim_types ("employment_termination".data) ("civil_law".data)
      ≠ [] := by decide

example :
    find_equivalent_claim_types ("wrongful_termination".data) ("civil_law".data)
      = [] := by decide

example : (search_jurisdictions ("colorado".data)).length = 1 := by decide

example : (search_jurisdictions ("".data)).length = 18 := by decide

/-- A candidate area-code length hits: it fits in the national number and
the corresponding prefix is a key of the country's area-code map. -/
abbrev ac_hit (nn : Str) (ci : CountryPhoneInfo) (len : Nat) : Prop :=
  len ≤ nn.length ∧ (ci.area_codes.lookup (nn.take len)).isSome = true

/-- Country fixture with a true 2-digit / 3-digit area-code prefix
collision (the spec asks for exactly such a fixture to exercise the
shortest-wins tie-break; no shipped country profile has one). -/
def fixture_overlap_country : CountryPhoneInfo :=
  { country_code := "ZZ".data
    calling_code := "+999".data
    country_name := "Fixture".data
    national_pfx := "0".data
    international_pfx := "00".data
    mobile_prefixes := []
    area_codes := [("303".data, "Three".data), ("30".data, "Two".data)] }

/-- C1 counterexample: the United States national number "1234567890" is
accepted by the US length rule, but formatting it nationally and re-parsing
with hint "US" strips the leading "1" as the calling code, yielding a
different, invalid national number — the round trip fails. -/
theorem C1_round_trip_cex :
    validate_number_for_country ("1234567890".data) united_states_info = true ∧
    ("united_states".data, united_states_info) ∈ phoneDB ∧
    apply_formatting ("1234567890".data) united_states_info
      = "(123) 456-7890".data ∧
    (parse_phone_number ("(123) 456-7890".data) (some ("US".data))).national_number
      = "234567890".data ∧
    (parse_phone_number ("(123) 456-7890".data) (some ("US".data))).is_valid
      = false := by decide

/-- C2 counterexample: "wrongful_termination" is in the common-law (source)
list of category employment_law, so the claim's described function returns
the civil-law list; the code instead tests membership in the target list
and returns the empty list. -/
theorem C2_equivalents_cex :
    find_equivalent_claim_types ("wrongful_termination".data) ("civil_law".data)
      = [] ∧
    ("employment_termination".data)
      ∈ find_equivalent_claim_types_spec ("wrongful_termination".data)
          ("civil_law".data) := by decide

/-- C3 counterexample: "+7 495 123 4567" starts with '+', but no table
calling code is a prefix of its digits, and then parse_phone_number DOES
consult the country hint: with hint "CA" it resolves Canada, with no hint
the United States — contradicting "without consulting the country hint". -/
theorem C3_resolution_cex :
    ['+'].isPrefixOf (clean_phone_number ("+7 495 123 4567".data)) = true ∧
    (parse_phone_number ("+7 495 123 4567".data) (some ("CA".data))).country_code
      = "CA".data ∧
    (parse_phone_number ("+7 495 123 4567".data) none).country_code
      = "US".data := by decide

/-- C4 counterexample: "+55 11 91234 5678" resolves to the recognized
country key "brazil" (a key of the phone table), yet its timezone is "UTC"
because the default-timezone table has no brazil entry — so "UTC" is not
returned only for unrecognized countries. -/
theorem C4_timezone_cex :
    resolved_country_key ("+55 11 91234 5678".data) none = "brazil".data ∧
    phoneDB.lookup ("brazil".data) = some brazil_info ∧
    (parse_phone_number ("+55 11 91234 5678".data) none).timezone
      = "UTC".data := by decide

/-- C6 counterexample: a case tagged country "united_states", state
"california", legacy jurisdiction "colorado" matches the claim's
EITHER-modern-OR-legacy test for ("united_states", "colorado") via its
legacy field, but the code's elif never reaches the legacy comparison once
the country matched, so the case is excluded. -/
theorem C6_filter_cex :
    lowerStr (CaseRecord.mk ("united_states".data) ("california".data)
        ("colorado".data)).jurisdiction = lowerStr ("colorado".data) ∧
    load_cases_by_jurisdiction
      (some [CaseRecord.mk ("united_states".data) ("california".data)
        ("colorado".data)])
      ("united_states".data) (some ("colorado".data)) = [] := by decide

theorem findSome?_eq_of_mem_nodup {β γ : Type} (l : List (Str × β)) (t : Str)
    (P : Str × β → Prop) [DecidablePred P] (g : Str × β → γ)
    (hnd : (l.map Prod.fst).Nodup)
    (sc : Str × β) (hsc : sc ∈ l) (ht : sc.1 = t) (hP : P sc) :
    l.findSome? (fun p => if p.1 = t ∧ P p then some (g p) else none)
      = some (g sc) := by
  induction l with
  | nil => cases hsc
  | cons p rest ih =>
    rw [List.findSome?_cons]
    rcases List.mem_cons.mp hsc with rfl | htl
    · rw [if_pos ⟨ht, hP⟩]
    · rw [List.map_cons, List.nodup_cons] at hnd
      have hp1 : ¬ (p.1 = t) := by
        intro he
        refine hnd.1 ?_
        rw [he, ← ht]
        exact List.mem_map_of_mem Prod.fst htl
      rw [if_neg (fun hc => hp1 hc.1)]
      exact ih hnd.2 htl

theorem lookup_mem {α β : Type} [BEq α] [LawfulBEq α] {l : List (α × β)}
    {a : α} {b : β} (h : l.lookup a = some b) : (a, b) ∈ l := by
  induction l with
  | nil => exact Option.noConfusion h
  | cons p rest ih =>
    rcases p with ⟨k, v⟩
    rw [List.lookup_cons] at h
    cases hbe : a == k with
    | true =>
      rw [hbe] at h
      obtain rfl : v = b := Option.some.inj h
      obtain rfl : a = k := eq_of_beq hbe
      exact List.mem_cons_self _ _
    | false =>
      rw [hbe] at h
      exact List.mem_cons_of_mem _ (ih h)

/-- C2 amended: membership in the result of find_equivalent_claim_types is
membership in some category's claim list for the TARGET system whose own
list contains the query claim type case-insensitively (the code tests the
target list, not the source-system list). -/
theorem C2_equivalents_amended (q t x : Str) :
    x ∈ find_equivalent_claim_types q t ↔
      ∃ cat ∈ LEGAL_EQUIVALENCIES, ∃ sc ∈ cat.2,
        sc.1 = t ∧ lowerStr q ∈ sc.2.map lowerStr ∧ x ∈ sc.2 := by
  unfold find_equivalent_claim_types
  rw [List.mem_dedup, List.mem_flatMap]
  constructor
  · rintro ⟨cat, hcat, hx⟩
    refine ⟨cat, hcat, ?_⟩
    rcases hfs : cat.2.findSome? (fun sc =>
        if sc.1 = t ∧ lowerStr q ∈ sc.2.map lowerStr then some sc.2 else none) with
      _ | claims
    · rw [hfs] at hx
      exact absurd hx (List.not_mem_nil x)
    · rw [hfs] at hx
      obtain ⟨sc, hsc, hsome⟩ := List.exists_of_findSome?_eq_some hfs
      by_cases hcond : sc.1 = t ∧ lowerStr q ∈ sc.2.map lowerStr
      · rw [if_pos hcond] at hsome
        obtain rfl : sc.2 = claims := Option.some.inj hsome
        exact ⟨sc, hsc, hcond.1, hcond.2, hx⟩
      · rw [if_neg hcond] at hsome
        exact Option.noConfusion hsome
  · rintro ⟨cat, hcat, sc, hsc, hteq, hq, hx⟩
    refine ⟨cat, hcat, ?_⟩
    have hnd : (cat.2.map Prod.fst).Nodup := by
      have hcat2 := hcat
      simp only [LEGAL_EQUIVALENCIES, List.mem_cons, List.not_mem_nil,
        or_false] at hcat2
      rcases hcat2 with rfl | rfl <;> decide
    rw [findSome?_eq_of_mem_nodup cat.2 t
      (fun sc => lowerStr q ∈ sc.2.map lowerStr) (fun sc => sc.2) hnd sc hsc hteq hq]
    exact hx

/-- C6 amended: with a case file, a case is returned iff its country field
matches the query country case-insensitively and (no state is queried, or
its state_province matches); only when the country does NOT match is the
legacy jurisdiction field compared, and only when a state is queried.  With
no case file the result is the empty list. -/
theorem C6_jurisdiction_filter_amended (cases : List CaseRecord) (ck : Str)
    (sk : Option Str) (c : CaseRecord) :
    load_cases_by_jurisdiction none ck sk = [] ∧
    (c ∈ load_cases_by_jurisdiction (some cases) ck sk ↔
      c ∈ cases ∧
      ((lowerStr c.country = lowerStr ck ∧
         (sk = none ∨ ∃ s, sk = some s ∧ lowerStr c.state_province = lowerStr s)) ∨
       (lowerStr c.country ≠ lowerStr ck ∧
         ∃ s, sk = some s ∧ lowerStr c.jurisdiction = lowerStr s))) := by
  refine ⟨rfl, ?_⟩
  unfold load_cases_by_jurisdiction
  rw [List.mem_filter]
  by_cases hc : lowerStr c.country = lowerStr ck
  · rw [if_pos hc]
    cases sk with
    | none => simp [hc]
    | some s => simp [hc]
  · rw [if_neg hc]
    cases sk with
    | none => simp [hc]
    | some s => simp [hc]

theorem tz_override_ne_utc :
    ∀ p ∈ timezone_mapping, ∀ q ∈ p.2, q.2 ≠ "UTC".data := by decide

theorem tz_default_ne_utc : ∀ p ∈ default_timezones, p.2 ≠ "UTC".data := by decide

/-- C4 amended: the resolved timezone is the override-table entry when the
(country, area code) pair is present there; otherwise the country's entry
in the six-country default-timezone table; and "UTC" is returned exactly
when the country has no default-table entry (which includes the recognized
countries brazil, india, japan and mexico), not only when the country is
unrecognized. -/
theorem C4_timezone_amended (ac : Option Str) (k : Str) :
    (∀ a m tz, ac = some a → timezone_mapping.lookup k = some m →
        m.lookup a = some tz → get_timezone_for_area_code ac k = tz) ∧
    ((timezone_mapping.lookup k).bind
        (fun m => ac.bind (fun a2 => m.lookup a2)) = none →
      get_timezone_for_area_code ac k
        = (default_timezones.lookup k).getD ("UTC".data)) ∧
    (get_timezone_for_area_code ac k = "UTC".data ↔
      (timezone_mapping.lookup k).bind
        (fun m => ac.bind (fun a2 => m.lookup a2)) = none ∧
      default_timezones.lookup k = none) := by
  refine ⟨?_, ?_, ?_⟩
  · intro a m tz ha hm htz
    unfold get_timezone_for_area_code
    rw [hm, ha]
    simp [Option.bind, htz]
  · intro h
    unfold get_timezone_for_area_code
    rw [h]
  · unfold get_timezone_for_area_code
    rcases hb : (timezone_mapping.lookup k).bind
        (fun m => ac.bind (fun a2 => m.lookup a2)) with _ | tz
    · rcases hd : default_timezones.lookup k with _ | d
      · simp
      · constructor
        · intro he
          exact absurd he (tz_default_ne_utc (k, d) (lookup_mem hd))
        · rintro ⟨-, hdn⟩
          exact Option.noConfusion hdn
    · constructor
      · intro he
        have he2 : tz = "UTC".data := he
        subst he2
        rcases hm : timezone_mapping.lookup k with _ | m
        · rw [hm] at hb
          exact Option.noConfusion hb
        · rw [hm] at hb
          rcases ha : ac with _ | a
          · rw [ha] at hb
            exact Option.noConfusion hb
          · rw [ha] at hb
            simp only [Option.bind_some] at hb
            exact absurd rfl
              (tz_override_ne_utc (k, m) (lookup_mem hm) (a, "UTC".data)
                (lookup_mem hb))
      · rintro ⟨hbn, -⟩
        exact Option.noConfusion hbn

/-- Witness for C4 amended, exercising the override branch: US area code
303 resolves to America/Denver. -/
theorem C4_timezone_amended_witness :
    get_timezone_for_area_code (some ("303".data)) ("united_states".data)
      = "America/Denver".data :=
  (C4_timezone_amended (some ("303".data)) ("united_states".data)).1
    ("303".data)
    [("303".data, "America/Denver".data),
     ("720".data, "America/Denver".data),
     ("719".data, "America/Denver".data),
     ("970".data, "America/Denver".data),
     ("213".data, "America/Los_Angeles".data),
     ("415".data, "America/Los_Angeles".data),
     ("212".data, "America/New_York".data)]
    ("America/Denver".data) rfl (by decide) (by decide)

theorem phoneDB_code_first :
    ∀ p ∈ phoneDB,
      phoneDB.findSome? (fun kc =>
        if kc.2.country_code = p.2.country_code then some kc.2 else none)
        = some p.2 ∧
      phoneDB.findSome? (fun kc =>
        if kc.2.country_code = p.2.country_code then some (calling_digits kc.2)
        else none)
        = some (calling_digits p.2) := by decide

/-- C7: format_for_dialing on a parsed number (whose country code is always
a table entry) returns an error value exactly when the calling-from country
code is not in the phone table; a same-country call returns the national
and international renderings unchanged with the national number as dial
string; a cross-country call concatenates the origin's international
dialing prefix, the destination's calling-code digits (without '+') and the
national-significant number, plus a human-readable instruction string. -/
theorem C7_format_for_dialing (pi2 : PhoneNumberInfo) (cf : Str)
    (ht : ∃ p ∈ phoneDB, p.2.country_code = pi2.country_code) :
    ((∃ msg, format_for_dialing pi2 cf = .error msg) ↔
      ¬ ∃ p ∈ phoneDB, p.2.country_code = cf) ∧
    ((∃ p ∈ phoneDB, p.2.country_code = cf) → cf = pi2.country_code →
      format_for_dialing pi2 cf
        = .domestic pi2.formatted_number pi2.international_format
            pi2.national_number) ∧
    (∀ pf ∈ phoneDB, pf.2.country_code = cf → cf ≠ pi2.country_code →
      ∀ pt ∈ phoneDB, pt.2.country_code = pi2.country_code →
        format_for_dialing pi2 cf
          = .international pi2.international_format
              (pf.2.international_pfx ++ calling_digits pt.2
                ++ pi2.national_number)
              ("Dial ".data ++ pf.2.international_pfx ++ " + ".data
                ++ calling_digits pt.2 ++ " + ".data ++ pi2.national_number)) := by
  obtain ⟨pt, hpt, hptc⟩ := ht
  have htgt : phoneDB.findSome? (fun kc =>
      if kc.2.country_code = pi2.country_code then some (calling_digits kc.2)
      else none) = some (calling_digits pt.2) := by
    have hx := (phoneDB_code_first pt hpt).2
    rw [hptc] at hx
    exact hx
  refine ⟨?_, ?_, ?_⟩
  · constructor
    · rintro ⟨msg, herr⟩ ⟨pf, hpf, hpfc⟩
      have hcf : phoneDB.findSome? (fun kc =>
          if kc.2.country_code = cf then some kc.2 else none) = some pf.2 := by
        have hx := (phoneDB_code_first pf hpf).1
        rw [hpfc] at hx
        exact hx
      unfold format_for_dialing at herr
      rw [hcf, htgt] at herr
      by_cases hsame : cf = pi2.country_code
      · simp [hsame] at herr
      · simp [hsame] at herr
    · intro hno
      have hcf : phoneDB.findSome? (fun kc =>
          if kc.2.country_code = cf then some kc.2 else none) = none := by
        rw [List.findSome?_eq_none_iff]
        intro kc hkc
        rw [if_neg (fun he => hno ⟨kc, hkc, he⟩)]
      unfold format_for_dialing
      rw [hcf]
      exact ⟨_, rfl⟩
  · rintro ⟨pf, hpf, hpfc⟩ hsame
    have hcf : phoneDB.findSome? (fun kc =>
        if kc.2.country_code = cf then some kc.2 else none) = some pf.2 := by
      have hx := (phoneDB_code_first pf hpf).1
      rw [hpfc] at hx
      exact hx
    unfold format_for_dialing
    rw [hcf, htgt]
    simp [hsame]
  · intro pf hpf hpfc hdiff pt2 hpt2 hpt2c
    have hcf : phoneDB.findSome? (fun kc =>
        if kc.2.country_code = cf then some kc.2 else none) = some pf.2 := by
      have hx := (phoneDB_code_first pf hpf).1
      rw [hpfc] at hx
      exact hx
    have htgt2 : phoneDB.findSome? (fun kc =>
        if kc.2.country_code = pi2.country_code then some (calling_digits kc.2)
        else none) = some (calling_digits pt2.2) := by
      have hx := (phoneDB_code_first pt2 hpt2).2
      rw [hpt2c] at hx
      exact hx
    unfold format_for_dialing
    rw [hcf, htgt2]
    simp [hdiff]

/-- Witness for C7: a parsed Colorado number dialed from the United Kingdom
uses 00 + 1 + national number. -/
theorem C7_format_for_dialing_witness :
    format_for_dialing (parse_phone_number ("+13035550123".data) none) ("GB".data)
      = DialingResult.international
          (parse_phone_number ("+13035550123".data) none).international_format
          ("00".data ++ "1".data
            ++ (parse_phone_number ("+13035550123".data) none).national_number)
          ("Dial ".data ++ "00".data ++ " + ".data ++ "1".data ++ " + ".data
            ++ (parse_phone_number ("+13035550123".data) none).national_number) :=
  (C7_format_for_dialing (parse_phone_number ("+13035550123".data) none)
      ("GB".data)
      ⟨("united_states".data, united_states_info), by decide, by decide⟩).2.2
    ("united_kingdom".data, united_kingdom_info) (by decide) (by decide)
    (by decide)
    ("united_states".data, united_states_info) (by decide) (by decide)

/-- C3 amended: when country detection from a leading '+' succeeds (some
calling code is a prefix of the digits after '+'), the resolved country is
the detected one for EVERY hint — the hint is not consulted; when detection
fails (no '+', or '+' but no calling-code match), the hint is used if it
maps to a table entry and otherwise the United States key is used; for a
'+' input, detection fails exactly when no table entry's calling-code
digits are a prefix of the remaining digits; and every input whose cleaned
form starts with "+1" resolves to the United States profile (never Canada),
whatever the hint. -/
theorem C3_resolution_amended (raw : Str) (hint : Option Str) :
    (∀ k, detect_country_from_number (clean_phone_number raw) = some k →
      ∀ hint2 : Option Str, resolved_country_key raw hint2 = k) ∧
    (detect_country_from_number (clean_phone_number raw) = none →
      resolved_country_key raw hint
        = (hint.bind get_country_key_from_code).getD ("united_states".data)) ∧
    (['+'].isPrefixOf (clean_phone_number raw) = true →
      (detect_country_from_number (clean_phone_number raw) = none ↔
        ∀ p ∈ phoneDB,
          ¬ (calling_digits p.2).isPrefixOf ((clean_phone_number raw).drop 1)
            = true)) ∧
    ((clean_phone_number raw).take 2 = ['+', '1'] →
      (parse_phone_number raw hint).country_code = "US".data) := by
  refine ⟨?_, ?_, ?_, ?_⟩
  · intro k h hint2
    unfold resolved_country_key
    rw [h]
  · intro h
    unfold resolved_country_key
    rw [h]
    cases hint <;> rfl
  · intro hplus
    unfold detect_country_from_number
    rw [if_pos hplus]
    rw [List.findSome?_eq_none_iff]
    constructor
    · intro h p hp hpre
      have hx := h p hp
      rw [if_pos hpre] at hx
      exact Option.noConfusion hx
    · intro h p hp
      rw [if_neg (h p hp)]
  · intro h2
    obtain ⟨t2, heq⟩ : ∃ t2, clean_phone_number raw = '+' :: '1' :: t2 := by
      rcases hcl : clean_phone_number raw with _ | ⟨c, t⟩
      · rw [hcl] at h2
        cases h2
      · rw [hcl] at h2
        rcases t with _ | ⟨c2, t2⟩
        · simp [List.take] at h2
        · simp only [List.take, List.cons.injEq] at h2
          obtain ⟨rfl, rfl, -⟩ := h2
          exact ⟨t2, rfl⟩
    have hdet : detect_country_from_number (clean_phone_number raw)
        = some ("united_states".data) := by
      rw [heq]
      unfold detect_country_from_number
      rw [if_pos (by simp [List.isPrefixOf])]
      rw [phoneDB]
      rw [List.findSome?_cons]
      rw [if_pos (by simp [calling_digits, united_states_info, List.isPrefixOf])]
    show (resolved_country_info raw hint).country_code = "US".data
    unfold resolved_country_info resolved_country_key
    rw [hdet]
    show ((phoneDB.lookup ("united_states".data)).getD
      united_states_info).country_code = "US".data
    decide

/-- Witness for C3 amended: "+1 222 333 4444" with hint "CA" still resolves
to the United States. -/
theorem C3_resolution_amended_witness :
    (parse_phone_number ("+1 222 333 4444".data)
      (some ("CA".data))).country_code = "US".data :=
  (C3_resolution_amended ("+1 222 333 4444".data)
    (some ("CA".data))).2.2.2 (by decide)

theorem filter_digit_all {n : Str} (h : ∀ c ∈ n, c.isDigit = true) :
    n.filter Char.isDigit = n :=
  List.filter_eq_self.mpr h

theorem filter_digit_take {n : Str} (h : ∀ c ∈ n, c.isDigit = true) (j : Nat) :
    (n.take j).filter Char.isDigit = n.take j :=
  List.filter_eq_self.mpr (fun c hc => h c (List.take_subset j n hc))

theorem filter_digit_drop {n : Str} (h : ∀ c ∈ n, c.isDigit = true) (i : Nat) :
    (n.drop i).filter Char.isDigit = n.drop i :=
  List.filter_eq_self.mpr (fun c hc => h c (List.drop_subset i n hc))

theorem filter_digit_drop_take {n : Str} (h : ∀ c ∈ n, c.isDigit = true)
    (i j : Nat) :
    ((n.drop i).take j).filter Char.isDigit = (n.drop i).take j :=
  List.filter_eq_self.mpr
    (fun c hc => h c (List.drop_subset i n (List.take_subset j _ hc)))

theorem take_drop_glue (n : Str) (i j : Nat) :
    (n.drop i).take j ++ n.drop (i + j) = n.drop i := by
  have h := List.take_append_drop j (n.drop i)
  rw [List.drop_drop j i n] at h
  exact h

theorem plus_beq_digit_false {c : Char} (h : c.isDigit = true) :
    ('+' == c) = false := by
  cases hbe : ('+' == c) with
  | false => rfl
  | true =>
    have he : '+' = c := eq_of_beq hbe
    rw [← he] at h
    exact absurd h (by decide)

theorem not_plus_prefix_head {c : Char} (t : Str) (h : c.isDigit = true) :
    (['+'].isPrefixOf (c :: t)) = false := by
  show (('+' == c) && (List.isPrefixOf [] t)) = false
  rw [plus_beq_digit_false h]
  rfl

theorem not_plus_prefix_of_digits {n : Str} (hdig : ∀ c ∈ n, c.isDigit = true) :
    (['+'].isPrefixOf n) = false := by
  cases n with
  | nil => rfl
  | cons c t => exact not_plus_prefix_head t (hdig c (List.mem_cons_self c t))

theorem plus_cons_not_prefix_of_digits {n : Str}
    (hdig : ∀ c ∈ n, c.isDigit = true) (cc : Str) :
    (('+' :: cc).isPrefixOf n) = false := by
  cases n with
  | nil => rfl
  | cons c t =>
    show (('+' == c) && (List.isPrefixOf cc t)) = false
    rw [plus_beq_digit_false (hdig c (List.mem_cons_self c t))]
    rfl

theorem clean_eq_filter (s : Str) (h : (['+'].isPrefixOf s) = false) :
    clean_phone_number s = s.filter Char.isDigit := by
  unfold clean_phone_number
  rw [if_neg (by rw [h]; exact Bool.false_ne_true)]

theorem detect_none_of_digits {n : Str} (hdig : ∀ c ∈ n, c.isDigit = true) :
    detect_country_from_number n = none := by
  unfold detect_country_from_number
  rw [if_neg (by rw [not_plus_prefix_of_digits hdig]; exact Bool.false_ne_true)]

theorem parse_for_country_passthrough (cleaned k2 : Str) (ci : CountryPhoneInfo)
    (hpcc : (('+' :: calling_digits ci).isPrefixOf cleaned) = false)
    (hcc : ((calling_digits ci).isPrefixOf cleaned) = false)
    (hnp : (ci.national_pfx.isPrefixOf cleaned) = false) :
    (parse_for_country cleaned k2 ci).national_number = cleaned ∧
    (parse_for_country cleaned k2 ci).is_valid
      = validate_number_for_country cleaned ci := by
  unfold parse_for_country
  simp only [hpcc, hcc, hnp, Bool.false_eq_true, if_false, ne_eq, and_false]
  exact ⟨trivial, trivial⟩

theorem round_trip_tail (raw n k2 : Str) (ci : CountryPhoneInfo)
    (hclean : clean_phone_number raw = n)
    (hdig : ∀ c ∈ n, c.isDigit = true)
    (hget : get_country_key_from_code ci.country_code = some k2)
    (hlook : phoneDB.lookup k2 = some ci)
    (hcc : ((calling_digits ci).isPrefixOf n) = false)
    (hnp : (ci.national_pfx.isPrefixOf n) = false)
    (hval : validate_number_for_country n ci = true) :
    (parse_phone_number raw (some ci.country_code)).national_number = n ∧
    (parse_phone_number raw (some ci.country_code)).is_valid = true := by
  have hkey : resolved_country_key raw (some ci.country_code) = k2 := by
    unfold resolved_country_key
    rw [hclean, detect_none_of_digits hdig]
    show (get_country_key_from_code ci.country_code).getD
      ("united_states".data) = k2
    rw [hget]
    rfl
  have hinfo : resolved_country_info raw (some ci.country_code) = ci := by
    unfold resolved_country_info
    rw [hkey, hlook]
    rfl
  unfold parse_phone_number
  rw [hclean, hkey, hinfo]
  have hp := parse_for_country_passthrough n k2 ci
    (plus_cons_not_prefix_of_digits hdig (calling_digits ci)) hcc hnp
  refine ⟨hp.1, ?_⟩
  rw [hp.2]
  exact hval

/-- C1 amended: for every supported country profile and every all-digit
national number accepted by the country's length-validation rule that does
not begin with the country's calling-code digits and does not begin with
its national prefix, rendering in national format and re-parsing with that
country's ISO code as the hint round-trips: the result's national_number
equals the original national number and is_valid is true. -/
theorem C1_round_trip_amended (k : Str) (ci : CountryPhoneInfo) (n : Str)
    (hmem : (k, ci) ∈ phoneDB)
    (hdig : ∀ c ∈ n, c.isDigit = true)
    (hval : validate_number_for_country n ci = true)
    (hcc : ((calling_digits ci).isPrefixOf n) = false)
    (hnp : (ci.national_pfx.isPrefixOf n) = false) :
    (parse_phone_number (format_number n ci ("national".data))
        (some ci.country_code)).national_number = n ∧
    (parse_phone_number (format_number n ci ("national".data))
        (some ci.country_code)).is_valid = true := by
  have hfn : format_number n ci ("national".data) = apply_formatting n ci := by
    unfold format_number
    rw [if_neg (by decide)]
  rw [hfn]
  simp only [phoneDB, List.mem_cons, List.not_mem_nil, or_false,
    Prod.mk.injEq] at hmem
  rcases hmem with hm | hm | hm | hm | hm | hm | hm | hm | hm | hm <;>
    obtain ⟨rfl, rfl⟩ := hm
  · -- united_states
    have hlen : n.length = 10 := of_decide_eq_true hval
    have hfmt : apply_formatting n united_states_info
        = "(".data ++ n.take 3 ++ ") ".data ++ (n.drop 3).take 3 ++ "-".data
          ++ n.drop 6 := by
      unfold apply_formatting
      rw [if_pos ⟨Or.inl rfl, hlen⟩]
    have hclean : clean_phone_number (apply_formatting n united_states_info)
        = n := by
      rw [hfmt, clean_eq_filter _ (by rfl)]
      have s1 : List.filter Char.isDigit ("(".data) = [] := rfl
      have s2 : List.filter Char.isDigit (") ".data) = [] := rfl
      have s3 : List.filter Char.isDigit ("-".data) = [] := rfl
      simp only [List.filter_append, s1, s2, s3, filter_digit_take hdig,
        filter_digit_drop hdig, filter_digit_drop_take hdig, List.nil_append,
        List.append_nil, List.append_assoc]
      have g1 : (n.drop 3).take 3 ++ n.drop 6 = n.drop 3 := take_drop_glue n 3 3
      rw [g1, List.take_append_drop]
    exact round_trip_tail _ n ("united_states".data) united_states_info hclean
      hdig (by decide) (by decide) hcc hnp hval
  · -- canada
    have hlen : n.length = 10 := of_decide_eq_true hval
    have hfmt : apply_formatting n canada_info
        = "(".data ++ n.take 3 ++ ") ".data ++ (n.drop 3).take 3 ++ "-".data
          ++ n.drop 6 := by
      unfold apply_formatting
      rw [if_pos ⟨Or.inr rfl, hlen⟩]
    have hclean : clean_phone_number (apply_formatting n canada_info) = n := by
      rw [hfmt, clean_eq_filter _ (by rfl)]
      have s1 : List.filter Char.isDigit ("(".data) = [] := rfl
      have s2 : List.filter Char.isDigit (") ".data) = [] := rfl
      have s3 : List.filter Char.isDigit ("-".data) = [] := rfl
      simp only [List.filter_append, s1, s2, s3, filter_digit_take hdig,
        filter_digit_drop hdig, filter_digit_drop_take hdig, List.nil_append,
        List.append_nil, List.append_assoc]
      have g1 : (n.drop 3).take 3 ++ n.drop 6 = n.drop 3 := take_drop_glue n 3 3
      rw [g1, List.take_append_drop]
    exact round_trip_tail _ n ("canada".data) canada_info hclean
      hdig (by decide) (by decide) hcc hnp hval
  · -- australia
    have hlen : n.length = 9 := of_decide_eq_true hval
    have hfmt : apply_formatting n australia_info
        = n.take 1 ++ " ".data ++ (n.drop 1).take 4 ++ " ".data ++ n.drop 5 := by
      unfold apply_formatting
      rw [if_neg (fun hc => absurd hc.1 (by decide)), if_pos ⟨rfl, hlen⟩]
    have hclean : clean_phone_number (apply_formatting n australia_info)
        = n := by
      rw [hfmt]
      have hplusF : (['+'].isPrefixOf (n.take 1 ++ " ".data ++ (n.drop 1).take 4
          ++ " ".data ++ n.drop 5)) = false := by
        rcases n with _ | ⟨c, t⟩
        · exact absurd hlen (by decide)
        · exact not_plus_prefix_head _ (hdig c (List.mem_cons_self c t))
      rw [clean_eq_filter _ hplusF]
      have s1 : List.filter Char.isDigit (" ".data) = [] := rfl
      simp only [List.filter_append, s1, filter_digit_take hdig,
        filter_digit_drop hdig, filter_digit_drop_take hdig, List.nil_append,
        List.append_nil, List.append_assoc]
      have g1 : (n.drop 1).take 4 ++ n.drop 5 = n.drop 1 := take_drop_glue n 1 4
      rw [g1, List.take_append_drop]
    exact round_trip_tail _ n ("australia".data) australia_info hclean
      hdig (by decide) (by decide) hcc hnp hval
  · -- united_kingdom
    have hrange : 10 ≤ n.length ∧ n.length ≤ 11 := of_decide_eq_true hval
    have hne : n ≠ [] := by
      intro he
      rw [he] at hrange
      exact absurd hrange.1 (by decide)
    by_cases hl10 : n.length = 10
    · have hfmt : apply_formatting n united_kingdom_info
          = n.take 4 ++ " ".data ++ (n.drop 4).take 3 ++ " ".data
            ++ n.drop 7 := by
        unfold apply_formatting
        rw [if_neg (fun hc => absurd hc.1 (by decide)),
          if_neg (fun hc => absurd hc.1 (by decide)), if_pos (by decide), if_pos hl10]
      have hclean : clean_phone_number (apply_formatting n united_kingdom_info)
          = n := by
        rw [hfmt]
        have hplusF : (['+'].isPrefixOf (n.take 4 ++ " ".data
            ++ (n.drop 4).take 3 ++ " ".data ++ n.drop 7)) = false := by
          rcases n with _ | ⟨c, t⟩
          · exact absurd rfl hne
          · exact not_plus_prefix_head _ (hdig c (List.mem_cons_self c t))
        rw [clean_eq_filter _ hplusF]
        have s1 : List.filter Char.isDigit (" ".data) = [] := rfl
        simp only [List.filter_append, s1, filter_digit_take hdig,
          filter_digit_drop hdig, filter_digit_drop_take hdig, List.nil_append,
          List.append_nil, List.append_assoc]
        have g1 : (n.drop 4).take 3 ++ n.drop 7 = n.drop 4 :=
          take_drop_glue n 4 3
        rw [g1, List.take_append_drop]
      exact round_trip_tail _ n ("united_kingdom".data) united_kingdom_info
        hclean hdig (by decide) (by decide) hcc hnp hval
    · have hfmt : apply_formatting n united_kingdom_info
          = n.take 3 ++ " ".data ++ (n.drop 3).take 3 ++ " ".data
            ++ n.drop 6 := by
        unfold apply_formatting
        rw [if_neg (fun hc => absurd hc.1 (by decide)),
          if_neg (fun hc => absurd hc.1 (by decide)), if_pos (by decide), if_neg hl10]
      have hclean : clean_phone_number (apply_formatting n united_kingdom_info)
          = n := by
        rw [hfmt]
        have hplusF : (['+'].isPrefixOf (n.take 3 ++ " ".data
            ++ (n.drop 3).take 3 ++ " ".data ++ n.drop 6)) = false := by
          rcases n with _ | ⟨c, t⟩
          · exact absurd rfl hne
          · exact not_plus_prefix_head _ (hdig c (List.mem_cons_self c t))
        rw [clean_eq_filter _ hplusF]
        have s1 : List.filter Char.isDigit (" ".data) = [] := rfl
        simp only [List.filter_append, s1, filter_digit_take hdig,
          filter_digit_drop hdig, filter_digit_drop_take hdig, List.nil_append,
          List.append_nil, List.append_assoc]
        have g1 : (n.drop 3).take 3 ++ n.drop 6 = n.drop 3 :=
          take_drop_glue n 3 3
        rw [g1, List.take_append_drop]
      exact round_trip_tail _ n ("united_kingdom".data) united_kingdom_info
        hclean hdig (by decide) (by decide) hcc hnp hval
  · -- germany
    have hrange : 10 ≤ n.length ∧ n.length ≤ 12 := of_decide_eq_true hval
    have hne : n ≠ [] := by
      intro he
      rw [he] at hrange
      exact absurd hrange.1 (by decide)
    have hfmt : apply_formatting n germany_info
        = n.take 3 ++ " ".data ++ n.drop 3 := by
      unfold apply_formatting
      rw [if_neg (fun hc => absurd hc.1 (by decide)),
        if_neg (fun hc => absurd hc.1 (by decide)), if_neg (by decide),
        if_pos (by decide)]
    have hclean : clean_phone_number (apply_formatting n germany_info) = n := by
      rw [hfmt]
      have hplusF : (['+'].isPrefixOf (n.take 3 ++ " ".data ++ n.drop 3))
          = false := by
        rcases n with _ | ⟨c, t⟩
        · exact absurd rfl hne
        · exact not_plus_prefix_head _ (hdig c (List.mem_cons_self c t))
      rw [clean_eq_filter _ hplusF]
      have s1 : List.filter Char.isDigit (" ".data) = [] := rfl
      simp only [List.filter_append, s1, filter_digit_take hdig,
        filter_digit_drop hdig, List.nil_append, List.append_nil,
        List.append_assoc]
      rw [List.take_append_drop]
    exact round_trip_tail _ n ("germany".data) germany_info hclean
      hdig (by decide) (by decide) hcc hnp hval
  · -- france
    have hlen : n.length = 9 := of_decide_eq_true hval
    have hfmt : apply_formatting n france_info
        = n.take 1 ++ " ".data ++ (n.drop 1).take 2 ++ " ".data
          ++ (n.drop 3).take 2 ++ " ".data ++ (n.drop 5).take 2 ++ " ".data
          ++ n.drop 7 := by
      unfold apply_formatting
      rw [if_neg (fun hc => absurd hc.1 (by decide)),
        if_neg (fun hc => absurd hc.1 (by decide)), if_neg (by decide),
        if_neg (by decide), if_pos ⟨rfl, hlen⟩]
    have hclean : clean_phone_number (apply_formatting n france_info) = n := by
      rw [hfmt]
      have hplusF : (['+'].isPrefixOf (n.take 1 ++ " ".data ++ (n.drop 1).take 2
          ++ " ".data ++ (n.drop 3).take 2 ++ " ".data ++ (n.drop 5).take 2
          ++ " ".data ++ n.drop 7)) = false := by
        rcases n with _ | ⟨c, t⟩
        · exact absurd hlen (by decide)
        · exact not_plus_prefix_head _ (hdig c (List.mem_cons_self c t))
      rw [clean_eq_filter _ hplusF]
      have s1 : List.filter Char.isDigit (" ".data) = [] := rfl
      simp only [List.filter_append, s1, filter_digit_take hdig,
        filter_digit_drop hdig, filter_digit_drop_take hdig, List.nil_append,
        List.append_nil, List.append_assoc]
      have g1 : (n.drop 5).take 2 ++ n.drop 7 = n.drop 5 := take_drop_glue n 5 2
      have g2 : (n.drop 3).take 2 ++ n.drop 5 = n.drop 3 := take_drop_glue n 3 2
      have g3 : (n.drop 1).take 2 ++ n.drop 3 = n.drop 1 := take_drop_glue n 1 2
      rw [g1, g2, g3, List.take_append_drop]
    exact round_trip_tail _ n ("france".data) france_info hclean
      hdig (by decide) (by decide) hcc hnp hval
  · -- brazil
    have hfmt : apply_formatting n brazil_info = n := by
      unfold apply_formatting
      rw [if_neg (fun hc => absurd hc.1 (by decide)),
        if_neg (fun hc => absurd hc.1 (by decide)), if_neg (by decide),
        if_neg (by decide), if_neg (fun hc => absurd hc.1 (by decide))]
    have hclean : clean_phone_number (apply_formatting n brazil_info) = n := by
      rw [hfmt, clean_eq_filter _ (not_plus_prefix_of_digits hdig)]
      exact filter_digit_all hdig
    exact round_trip_tail _ n ("brazil".data) brazil_info hclean
      hdig (by decide) (by decide) hcc hnp hval
  · -- india
    have hfmt : apply_formatting n india_info = n := by
      unfold apply_formatting
      rw [if_neg (fun hc => absurd hc.1 (by decide)),
        if_neg (fun hc => absurd hc.1 (by decide)), if_neg (by decide),
        if_neg (by decide), if_neg (fun hc => absurd hc.1 (by decide))]
    have hclean : clean_phone_number (apply_formatting n india_info) = n := by
      rw [hfmt, clean_eq_filter _ (not_plus_prefix_of_digits hdig)]
      exact filter_digit_all hdig
    exact round_trip_tail _ n ("india".data) india_info hclean
      hdig (by decide) (by decide) hcc hnp hval
  · -- japan
    have hfmt : apply_formatting n japan_info = n := by
      unfold apply_formatting
      rw [if_neg (fun hc => absurd hc.1 (by decide)),
        if_neg (fun hc => absurd hc.1 (by decide)), if_neg (by decide),
        if_neg (by decide), if_neg (fun hc => absurd hc.1 (by decide))]
    have hclean : clean_phone_number (apply_formatting n japan_info) = n := by
      rw [hfmt, clean_eq_filter _ (not_plus_prefix_of_digits hdig)]
      exact filter_digit_all hdig
    exact round_trip_tail _ n ("japan".data) japan_info hclean
      hdig (by decide) (by decide) hcc hnp hval
  · -- mexico
    have hfmt : apply_formatting n mexico_info = n := by
      unfold apply_formatting
      rw [if_neg (fun hc => absurd hc.1 (by decide)),
        if_neg (fun hc => absurd hc.1 (by decide)), if_neg (by decide),
        if_neg (by decide), if_neg (fun hc => absurd hc.1 (by decide))]
    have hclean : clean_phone_number (apply_formatting n mexico_info) = n := by
      rw [hfmt, clean_eq_filter _ (not_plus_prefix_of_digits hdig)]
      exact filter_digit_all hdig
    exact round_trip_tail _ n ("mexico".data) mexico_info hclean
      hdig (by decide) (by decide) hcc hnp hval

/-- Witness for C1 amended: the Colorado number 3035550123 round-trips
through national formatting and re-parsing with hint "US". -/
theorem C1_round_trip_amended_witness :
    (parse_phone_number (format_number ("3035550123".data) united_states_info
        ("national".data)) (some ("US".data))).national_number
      = "3035550123".data ∧
    (parse_phone_number (format_number ("3035550123".data) united_states_info
        ("national".data)) (some ("US".data))).is_valid = true :=
  C1_round_trip_amended ("united_states".data) united_states_info
    ("3035550123".data) (by decide) (by decide) (by decide) (by decide)
    (by decide)

theorem extract_eq_some_iff (nn : Str) (ci : CountryPhoneInfo) (ac : Str) :
    extract_area_code nn ci = some ac ↔
      ∃ len, len ∈ [2, 3, 4, 5] ∧ ac_hit nn ci len ∧ ac = nn.take len ∧
        ∀ l2 ∈ [2, 3, 4, 5], l2 < len → ¬ ac_hit nn ci l2 := by
  unfold extract_area_code
  simp only [List.findSome?_cons, List.findSome?_nil]
  by_cases h2 : ac_hit nn ci 2
  · rw [if_pos h2]
    constructor
    · rintro ⟨rfl⟩
      refine ⟨2, by simp, h2, rfl, ?_⟩
      intro l2 hl2 hlt
      simp only [List.mem_cons, List.not_mem_nil, or_false] at hl2
      exact absurd hlt (by omega)
    · rintro ⟨len, hmem, hhit, rfl, hmin⟩
      simp only [List.mem_cons, List.not_mem_nil, or_false] at hmem
      have he : len = 2 := by
        rcases hmem with rfl | rfl | rfl | rfl
        · rfl
        · exact absurd h2 (hmin 2 (by simp) (by omega))
        · exact absurd h2 (hmin 2 (by simp) (by omega))
        · exact absurd h2 (hmin 2 (by simp) (by omega))
      subst he; rfl
  · rw [if_neg h2]
    by_cases h3 : ac_hit nn ci 3
    · rw [if_pos h3]
      constructor
      · rintro ⟨rfl⟩
        refine ⟨3, by simp, h3, rfl, ?_⟩
        intro l2 hl2 hlt
        simp only [List.mem_cons, List.not_mem_nil, or_false] at hl2
        rcases hl2 with rfl | rfl | rfl | rfl
        · exact h2
        · exact absurd hlt (by omega)
        · exact absurd hlt (by omega)
        · exact absurd hlt (by omega)
      · rintro ⟨len, hmem, hhit, rfl, hmin⟩
        simp only [List.mem_cons, List.not_mem_nil, or_false] at hmem
        have he : len = 3 := by
          rcases hmem with rfl | rfl | rfl | rfl
          · exact absurd hhit h2
          · rfl
          · exact absurd h3 (hmin 3 (by simp) (by omega))
          · exact absurd h3 (hmin 3 (by simp) (by omega))
        subst he; rfl
    · rw [if_neg h3]
      by_cases h4 : ac_hit nn ci 4
      · rw [if_pos h4]
        constructor
        · rintro ⟨rfl⟩
          refine ⟨4, by simp, h4, rfl, ?_⟩
          intro l2 hl2 hlt
          simp only [List.mem_cons, List.not_mem_nil, or_false] at hl2
          rcases hl2 with rfl | rfl | rfl | rfl
          · exact h2
          · exact h3
          · exact absurd hlt (by omega)
          · exact absurd hlt (by omega)
        · rintro ⟨len, hmem, hhit, rfl, hmin⟩
          simp only [List.mem_cons, List.not_mem_nil, or_false] at hmem
          have he : len = 4 := by
            rcases hmem with rfl | rfl | rfl | rfl
            · exact absurd hhit h2
            · exact absurd hhit h3
            · rfl
            · exact absurd h4 (hmin 4 (by simp) (by omega))
          subst he; rfl
      · rw [if_neg h4]
        by_cases h5 : ac_hit nn ci 5
        · rw [if_pos h5]
          constructor
          · rintro ⟨rfl⟩
            refine ⟨5, by simp, h5, rfl, ?_⟩
            intro l2 hl2 hlt
            simp only [List.mem_cons, List.not_mem_nil, or_false] at hl2
            rcases hl2 with rfl | rfl | rfl | rfl
            · exact h2
            · exact h3
            · exact h4
            · exact absurd hlt (by omega)
          · rintro ⟨len, hmem, hhit, rfl, hmin⟩
            simp only [List.mem_cons, List.not_mem_nil, or_false] at hmem
            have he : len = 5 := by
              rcases hmem with rfl | rfl | rfl | rfl
              · exact absurd hhit h2
              · exact absurd hhit h3
              · exact absurd hhit h4
              · rfl
            subst he; rfl
        · rw [if_neg h5]
          constructor
          · rintro ⟨⟩
          · rintro ⟨len, hmem, hhit, rfl, hmin⟩
            simp only [List.mem_cons, List.not_mem_nil, or_false] at hmem
            rcases hmem with rfl | rfl | rfl | rfl
            · exact absurd hhit h2
            · exact absurd hhit h3
            · exact absurd hhit h4
            · exact absurd hhit h5

theorem extract_eq_none_iff (nn : Str) (ci : CountryPhoneInfo) :
    extract_area_code nn ci = none ↔ ∀ l ∈ [2, 3, 4, 5], ¬ ac_hit nn ci l := by
  unfold extract_area_code
  rw [List.findSome?_eq_none_iff]
  constructor
  · intro h l hl hhit
    have hx := h l hl
    rw [if_pos hhit] at hx
    exact Option.noConfusion hx
  · intro h l hl
    rw [if_neg (h l hl)]

/-- C5: area-code extraction tries candidate prefix lengths 2,3,4,5 in
increasing order, returns the first candidate that is a key of the
country's area-code map (so the shortest matching key wins), and returns no
area code when no candidate of any of those lengths is a key. -/
theorem C5_area_code_shortest_match (nn : Str) (ci : CountryPhoneInfo) :
    (∀ ac, extract_area_code nn ci = some ac →
      ∃ len, len ∈ [2, 3, 4, 5] ∧ len ≤ nn.length ∧ ac = nn.take len ∧
        (ci.area_codes.lookup ac).isSome = true ∧
        ∀ l2 ∈ [2, 3, 4, 5], l2 < len → l2 ≤ nn.length →
          (ci.area_codes.lookup (nn.take l2)).isSome = false) ∧
    (extract_area_code nn ci = none ↔
      ∀ l ∈ [2, 3, 4, 5], l ≤ nn.length →
        (ci.area_codes.lookup (nn.take l)).isSome = false) := by
  constructor
  · intro ac hac
    obtain ⟨len, hmem, hhit, hac2, hmin⟩ := (extract_eq_some_iff nn ci ac).mp hac
    refine ⟨len, hmem, hhit.1, hac2, hac2 ▸ hhit.2, ?_⟩
    intro l2 hl2 hlt hle
    have hx := hmin l2 hl2 hlt
    by_contra hc
    rw [Bool.not_eq_false] at hc
    exact hx ⟨hle, hc⟩
  · rw [extract_eq_none_iff]
    constructor
    · intro h l hl hle
      have hx := h l hl
      by_contra hc
      rw [Bool.not_eq_false] at hc
      exact hx ⟨hle, hc⟩
    · intro h l hl hhit
      have hx := h l hl hhit.1
      rw [hhit.2] at hx
      exact Bool.noConfusion hx

/-- Witness for C5: on the overlap fixture both "30" and "303" are keys
matching "3035550123", and extraction returns the shortest, "30". -/
theorem C5_area_code_shortest_match_witness :
    extract_area_code ("3035550123".data) fixture_overlap_country
      = some ("30".data) ∧
    ∃ len, len ∈ [2, 3, 4, 5] ∧ len ≤ ("3035550123".data).length ∧
      "30".data = ("3035550123".data).take len ∧
      (fixture_overlap_country.area_codes.lookup ("30".data)).isSome = true ∧
      ∀ l2 ∈ [2, 3, 4, 5], l2 < len → l2 ≤ ("3035550123".data).length →
        (fixture_overlap_country.area_codes.lookup
          (("3035550123".data).take l2)).isSome = false :=
  ⟨by decide,
   (C5_area_code_shortest_match ("3035550123".data) fixture_overlap_country).1
     ("30".data) (by decide)⟩

/-- C8: for the Brazil profile the phone-type classifier can never answer
"premium": any national number starting with "900" also starts with
Brazil's mobile prefix "9", and the mobile check comes first. -/
theorem C8_brazil_never_premium (nn : Str) :
    determine_phone_type nn brazil_info ≠ "premium".data := by
  have hbr : brazil_info.mobile_prefixes = ["9".data] := rfl
  unfold determine_phone_type
  rw [hbr]
  cases h : (("9".data).isPrefixOf nn) with
  | true => simp [List.find?, h]
  | false =>
    have h900 : (("900".data).isPrefixOf nn) = false := by
      cases nn with
      | nil => rfl
      | cons c t =>
        simp [List.isPrefixOf] at h ⊢
        intro hc
        exact absurd hc h
    simp [List.find?, h, h900]
    split
    · decide
    · decide

/-- Witness for C8: a Brazilian "900…" number is classified mobile, not
premium. -/
theorem C8_brazil_never_premium_witness :
    determine_phone_type ("9001234567".data) brazil_info = "mobile".data ∧
    determine_phone_type ("9001234567".data) brazil_info ≠ "premium".data :=
  ⟨by decide, C8_brazil_never_premium ("9001234567".data)⟩

/-- C9: whenever parsing yields an area code, it is a prefix of the
national-number field, its length is between 2 and 5, and it is a key of
the resolved country's area-code map. -/
theorem C9_area_code_field_invariant (raw : Str) (hint : Option Str) (ac : Str)
    (h : (parse_phone_number raw hint).area_code = some ac) :
    ac <+: (parse_phone_number raw hint).national_number ∧
    2 ≤ ac.length ∧ ac.length ≤ 5 ∧
    ((resolved_country_info raw hint).area_codes.lookup ac).isSome = true := by
  have h2 : extract_area_code ((parse_phone_number raw hint).national_number)
      (resolved_country_info raw hint) = some ac := h
  obtain ⟨len, hmem, hhit, hac2, -⟩ :=
    (extract_eq_some_iff _ _ ac).mp h2
  simp only [List.mem_cons, List.not_mem_nil, or_false] at hmem
  subst hac2
  refine ⟨ List.take_prefix len _, ?_, ?_, hhit.2⟩
  · rw [List.length_take]
    rcases hmem with rfl | rfl | rfl | rfl <;> omega
  · rw [List.length_take]
    rcases hmem with rfl | rfl | rfl | rfl <;> omega

/-- Witness for C9 at a parsed Colorado number: area code "303". -/
theorem C9_area_code_field_invariant_witness :
    ("303".data) <+: (parse_phone_number ("+13035550123".data) none).national_number ∧
    2 ≤ ("303".data).length ∧ ("303".data).length ≤ 5 ∧
    ((resolved_country_info ("+13035550123".data) none).area_codes.lookup
      ("303".data)).isSome = true :=
  C9_area_code_field_invariant ("+13035550123".data) none ("303".data) (by decide)

/-- C10: searching with the empty query returns one country entry for every
country and one state entry for every state, in table-iteration order, each
country entry immediately followed by the entries of its own states. -/
theorem C10_empty_query_search :
    search_jurisdictions ("".data)
      = INTERNATIONAL_JURISDICTIONS.flatMap (fun kc =>
          SearchResult.country kc.1 kc.2.country_name kc.2.country_code
            kc.2.legal_system
          :: kc.2.states.map (fun ss =>
              SearchResult.state kc.1 kc.2.country_name ss.1 ss.2.name ss.2.code
                ss.2.capital kc.2.legal_system)) := by decide
